import Mathlib

/-!
Verification of the task CRUD service of the autograde-api repository.

The handlers `read_task`, `create_task`, `update_task` and `delete_task` are
shallow embeddings of `src/routers/tasks.py`.  The storage engine they call
(`FileUtils` from `utilities/file_scripts.py`) is not part of the given source
tree, so it is modelled from the specification, section 4.1: a key-value store
over `(resource_kind, theme_id, task_id)` plus a positional theme index, where
an out-of-range `theme_id` raises `IndexError` during path derivation and a
missing resource file raises `FileNotFoundError`.

Conventions of the embedding:
* Python exceptions become the `FsError` type; uncaught exceptions surface as
  `ApiError.internal` (an HTTP 500).
* HTTP 404/422 responses become the corresponding `ApiError` constructors.
* Each handler takes the storage state and returns the (possibly mutated)
  state together with `Except ApiError result`; a raised `HTTPException`
  aborts the handler but keeps the writes already performed.
* The bytes read from a code upload are a `List Nat`; an absent upload reads
  as the empty byte string, matching the truthiness test the handlers use.
-/

namespace AutogradeApi

/-- Python exceptions raised by the storage layer: `FileNotFoundError` and
`IndexError`. -/
inductive FsError where
  | fileNotFound
  | indexError
deriving DecidableEq

/-- Domain errors of the task endpoints (`schemas.errors`), plus `internal`
for a Python exception no handler catches (surfacing as HTTP 500). -/
inductive ApiError where
  | notFoundTask
  | notFoundTheme
  | emptyRequest
  | internal
deriving DecidableEq

/-- Equality of storage-operation results is decidable, so concrete runs of
the handlers can be checked by evaluation. -/
instance exceptDecEq {ε α : Type} [DecidableEq ε] [DecidableEq α] :
    DecidableEq (Except ε α)
  | .ok a, .ok b => decidable_of_iff (a = b) (by simp)
  | .ok _, .error _ => isFalse (by simp)
  | .error _, .ok _ => isFalse (by simp)
  | .error e, .error f => decidable_of_iff (e = f) (by simp)

/-- One entry of the persisted theme index: the `{id, count}` record. -/
structure ThemeEntry where
  id : Int
  count : Int
deriving DecidableEq

/-- The record persisted as the `task_info` resource of one task. -/
structure TaskInfo where
  id : Int
  theme_id : Nat
  title : String
  description : String
deriving DecidableEq

/-- The assembled task returned by the read and create endpoints
(`schemas.tasks.Task`). -/
structure Task where
  id : Int
  theme_id : Nat
  title : String
  description : String
  input : List Int
  output : List Int
deriving DecidableEq

/-- The create payload (`schemas.tasks.TaskCreate`). -/
structure TaskCreate where
  title : String
  description : String
  input : List Int
  output : List Int
deriving DecidableEq

/-- The update payload (`schemas.tasks.TaskUpdate`): every field optional. -/
structure TaskUpdate where
  id : Option Int
  theme_id : Option Nat
  title : Option String
  description : Option String
  input : Option (List Int)
  output : Option (List Int)
deriving DecidableEq

/-- Look up the resource file stored under a `(theme_id, task_id)` key. -/
def resLookup {α : Type} : List ((Nat × Int) × α) → (Nat × Int) → Option α
  | [], _ => none
  | (k, v) :: rest, q => if k = q then some v else resLookup rest q

/-- Delete every resource file stored under a key. -/
def resErase {α : Type} : List ((Nat × Int) × α) → (Nat × Int) → List ((Nat × Int) × α)
  | [], _ => []
  | (k, v) :: rest, q => if k = q then resErase rest q else (k, v) :: resErase rest q

/-- Create or overwrite the resource file stored under a key. -/
def resSet {α : Type} (st : List ((Nat × Int) × α)) (q : Nat × Int) (v : α) :
    List ((Nat × Int) × α) :=
  (q, v) :: resErase st q

/-- The persistent state visible to the task service: the theme index plus one
keyed store per task resource kind. -/
structure Storage where
  themeIndex : List ThemeEntry
  info : List ((Nat × Int) × TaskInfo)
  inputVals : List ((Nat × Int) × List Int)
  outputVals : List ((Nat × Int) × List Int)
  codeFiles : List ((Nat × Int) × List Nat)
deriving DecidableEq

/-- Modelled from the spec: the read path of `FileUtils.open_file` and
`FileUtils.open_file_values` for per-task resources (`utilities/file_scripts.py`
is not under `src/`).  Path derivation indexes the theme index positionally and
raises `IndexError` when `theme_id` is out of range; a missing resource file
raises `FileNotFoundError`. -/
def openRes {α : Type} (idxLen : Nat) (store : List ((Nat × Int) × α))
    (theme_id : Nat) (task_id : Int) : Except FsError α :=
  if theme_id < idxLen then
    match resLookup store (theme_id, task_id) with
    | some v => .ok v
    | none => .error .fileNotFound
  else .error .indexError

/-- Modelled from the spec: the write path of `FileUtils.save_file` and
`FileUtils.save_file_values` for per-task resources (`utilities/file_scripts.py`
is not under `src/`).  A write creates or overwrites the resource
unconditionally; only the positional path derivation can fail, raising
`IndexError` when `theme_id` is out of range. -/
def saveRes {α : Type} (idxLen : Nat) (store : List ((Nat × Int) × α))
    (theme_id : Nat) (task_id : Int) (content : α) :
    Except FsError (List ((Nat × Int) × α)) :=
  if theme_id < idxLen then .ok (resSet store (theme_id, task_id) content)
  else .error .indexError

/-- Modelled from the spec: `FileUtils.remove_file` for per-task resources
(`utilities/file_scripts.py` is not under `src/`).  Removal fails with the same
taxonomy as reading: `IndexError` for an out-of-range theme, and
`FileNotFoundError` when the resource file is absent. -/
def removeRes {α : Type} (idxLen : Nat) (store : List ((Nat × Int) × α))
    (theme_id : Nat) (task_id : Int) :
    Except FsError (List ((Nat × Int) × α)) :=
  if theme_id < idxLen then
    match resLookup store (theme_id, task_id) with
    | some _ => .ok (resErase store (theme_id, task_id))
    | none => .error .fileNotFound
  else .error .indexError

namespace FileUtils

/-- Modelled from the spec: `FileUtils.open_file('theme_index', theme_id=...)`,
which loads the whole ordered index and validates the positional lookup,
raising `IndexError` when `theme_id` is out of range. -/
def open_file_theme_index_checked (s : Storage) (theme_id : Nat) :
    Except FsError (List ThemeEntry) :=
  if theme_id < s.themeIndex.length then .ok s.themeIndex else .error .indexError

/-- Modelled from the spec: `FileUtils.open_file('theme_index')` with no
`theme_id` argument: loads the whole index without any range check. -/
def open_file_theme_index (s : Storage) : List ThemeEntry := s.themeIndex

/-- Modelled from the spec: `FileUtils.open_file('task_info', ...)`. -/
def open_file_task_info (s : Storage) (theme_id : Nat) (task_id : Int) :
    Except FsError TaskInfo :=
  openRes s.themeIndex.length s.info theme_id task_id

/-- Modelled from the spec: `FileUtils.open_file_values('task_input', ...)`. -/
def open_file_values_task_input (s : Storage) (theme_id : Nat) (task_id : Int) :
    Except FsError (List Int) :=
  openRes s.themeIndex.length s.inputVals theme_id task_id

/-- Modelled from the spec: `FileUtils.open_file_values('task_output', ...)`. -/
def open_file_values_task_output (s : Storage) (theme_id : Nat) (task_id : Int) :
    Except FsError (List Int) :=
  openRes s.themeIndex.length s.outputVals theme_id task_id

/-- Modelled from the spec: `FileUtils.save_file('task_info', ...)`. -/
def save_file_task_info (s : Storage) (content : TaskInfo) (theme_id : Nat)
    (task_id : Int) : Except FsError Storage :=
  (saveRes s.themeIndex.length s.info theme_id task_id content).map
    (fun st => { s with info := st })

/-- Modelled from the spec: `FileUtils.save_file_values('task_input', ...)`. -/
def save_file_values_task_input (s : Storage) (content : List Int)
    (theme_id : Nat) (task_id : Int) : Except FsError Storage :=
  (saveRes s.themeIndex.length s.inputVals theme_id task_id content).map
    (fun st => { s with inputVals := st })

/-- Modelled from the spec: `FileUtils.save_file_values('task_output', ...)`. -/
def save_file_values_task_output (s : Storage) (content : List Int)
    (theme_id : Nat) (task_id : Int) : Except FsError Storage :=
  (saveRes s.themeIndex.length s.outputVals theme_id task_id content).map
    (fun st => { s with outputVals := st })

/-- Modelled from the spec: `FileUtils.save_file('task_code', ...)`. -/
def save_file_task_code (s : Storage) (content : List Nat) (theme_id : Nat)
    (task_id : Int) : Except FsError Storage :=
  (saveRes s.themeIndex.length s.codeFiles theme_id task_id content).map
    (fun st => { s with codeFiles := st })

/-- Modelled from the spec: `FileUtils.save_file('theme_index', content=...)`,
which rewrites the whole index (extra keyword arguments are ignored). -/
def save_file_theme_index (s : Storage) (content : List ThemeEntry) : Storage :=
  { s with themeIndex := content }

/-- Modelled from the spec: `FileUtils.remove_file('task_info', ...)`. -/
def remove_file_task_info (s : Storage) (theme_id : Nat) (task_id : Int) :
    Except FsError Storage :=
  (removeRes s.themeIndex.length s.info theme_id task_id).map
    (fun st => { s with info := st })

/-- Modelled from the spec: `FileUtils.remove_file('task_input', ...)`. -/
def remove_file_task_input (s : Storage) (theme_id : Nat) (task_id : Int) :
    Except FsError Storage :=
  (removeRes s.themeIndex.length s.inputVals theme_id task_id).map
    (fun st => { s with inputVals := st })

/-- Modelled from the spec: `FileUtils.remove_file('task_output', ...)`. -/
def remove_file_task_output (s : Storage) (theme_id : Nat) (task_id : Int) :
    Except FsError Storage :=
  (removeRes s.themeIndex.length s.outputVals theme_id task_id).map
    (fun st => { s with outputVals := st })

/-- Modelled from the spec: `FileUtils.remove_file('task_code', ...)`. -/
def remove_file_task_code (s : Storage) (theme_id : Nat) (task_id : Int) :
    Except FsError Storage :=
  (removeRes s.themeIndex.length s.codeFiles theme_id task_id).map
    (fun st => { s with codeFiles := st })

end FileUtils

/-- Translation of the `except FileNotFoundError / except IndexError` pairs the
handlers use: `FileNotFoundError` becomes `NotFoundTask`, `IndexError` becomes
`NotFoundTheme` (src/routers/tasks.py lines 28-31, 174-177). -/
def notFoundOf : FsError → ApiError
  | .fileNotFound => .notFoundTask
  | .indexError => .notFoundTheme

/-- Shallow embedding of `read_task` (src/routers/tasks.py lines 21-33): open
the info record, the input values and the output values in that order inside
one `try`, mapping the first exception to its 404; on success assemble the
`Task` from the stored record plus the two value lists. -/
def read_task (s : Storage) (theme_id : Nat) (task_id : Int) :
    Storage × Except ApiError Task :=
  match FileUtils.open_file_task_info s theme_id task_id with
  | .error e => (s, .error (notFoundOf e))
  | .ok description =>
    match FileUtils.open_file_values_task_input s theme_id task_id with
    | .error e => (s, .error (notFoundOf e))
    | .ok inputs =>
      match FileUtils.open_file_values_task_output s theme_id task_id with
      | .error e => (s, .error (notFoundOf e))
      | .ok outputs =>
        (s, .ok { id := description.id, theme_id := description.theme_id,
                  title := description.title,
                  description := description.description,
                  input := inputs, output := outputs })

/-- Shallow embedding of `create_task` (src/routers/tasks.py lines 41-81):
validate the theme, compute `task_id = count + 1`, persist info, input values,
output values and the code blob in that order, then set the theme's count to
the new id and rewrite the index.  The saves are not wrapped in `try`, so a
storage exception there would surface as HTTP 500 (`internal`). -/
def create_task (s : Storage) (theme_id : Nat) (task : TaskCreate)
    (code : List Nat) : Storage × Except ApiError Task :=
  match FileUtils.open_file_theme_index_checked s theme_id with
  | .error _ => (s, .error .notFoundTheme)
  | .ok themes_json =>
    let task_id : Int := (themes_json.getD theme_id ⟨0, 0⟩).count + 1
    let newTask : Task :=
      { id := task_id, theme_id := theme_id, title := task.title,
        description := task.description, input := task.input,
        output := task.output }
    let task_description : TaskInfo :=
      { id := newTask.id, theme_id := newTask.theme_id, title := newTask.title,
        description := newTask.description }
    match FileUtils.save_file_task_info s task_description theme_id newTask.id with
    | .error _ => (s, .error .internal)
    | .ok s1 =>
      match FileUtils.save_file_values_task_input s1 newTask.input theme_id newTask.id with
      | .error _ => (s1, .error .internal)
      | .ok s2 =>
        match FileUtils.save_file_values_task_output s2 newTask.output theme_id newTask.id with
        | .error _ => (s2, .error .internal)
        | .ok s3 =>
          match FileUtils.save_file_task_code s3 code theme_id newTask.id with
          | .error _ => (s3, .error .internal)
          | .ok s4 =>
            (FileUtils.save_file_theme_index s4
              (themes_json.set theme_id
                { themes_json.getD theme_id ⟨0, 0⟩ with count := task_id }),
             .ok newTask)

/-- Python truthiness of an optional JSON string: `None` and `""` are falsy. -/
def strTruthy : Option String → Bool
  | none => false
  | some s => !(s == "")

/-- Python truthiness of an optional JSON list: `None` and `[]` are falsy. -/
def listTruthy : Option (List Int) → Bool
  | none => false
  | some l => !l.isEmpty

/-- Python truthiness of the bytes read from the code upload. -/
def bytesTruthy (code : List Nat) : Bool := !code.isEmpty

/-- Update step for the `task_code` resource (src/routers/tasks.py lines
148-158): when the upload read is truthy, overwrite the code blob, mapping
`IndexError` to `NotFoundTheme` and `FileNotFoundError` to `NotFoundTask`;
then return the task reconstructed from the request union. -/
def update_task_code_step (s : Storage) (theme_id : Nat) (task_id : Int)
    (task : TaskUpdate) (code : List Nat) : Storage × Except ApiError TaskUpdate :=
  if bytesTruthy code then
    match FileUtils.save_file_task_code s code theme_id task_id with
    | .error .indexError => (s, .error .notFoundTheme)
    | .error .fileNotFound => (s, .error .notFoundTask)
    | .ok s1 => (s1, .ok task)
  else (s, .ok task)

/-- Update step for the `task_output` resource (src/routers/tasks.py lines
139-147): when the output field is truthy, overwrite the output values.  Only
`FileNotFoundError` is caught there; an `IndexError` would be uncaught
(`internal`). -/
def update_task_output_step (s : Storage) (theme_id : Nat) (task_id : Int)
    (task : TaskUpdate) (code : List Nat) : Storage × Except ApiError TaskUpdate :=
  if listTruthy task.output then
    match FileUtils.save_file_values_task_output s (task.output.getD []) theme_id task_id with
    | .error .fileNotFound => (s, .error .notFoundTask)
    | .error .indexError => (s, .error .internal)
    | .ok s1 => update_task_code_step s1 theme_id task_id task code
  else update_task_code_step s theme_id task_id task code

/-- Update step for the `task_input` resource (src/routers/tasks.py lines
130-138): when the input field is truthy, overwrite the input values.  Only
`FileNotFoundError` is caught there; an `IndexError` would be uncaught
(`internal`). -/
def update_task_input_step (s : Storage) (theme_id : Nat) (task_id : Int)
    (task : TaskUpdate) (code : List Nat) : Storage × Except ApiError TaskUpdate :=
  if listTruthy task.input then
    match FileUtils.save_file_values_task_input s (task.input.getD []) theme_id task_id with
    | .error .fileNotFound => (s, .error .notFoundTask)
    | .error .indexError => (s, .error .internal)
    | .ok s1 => update_task_output_step s1 theme_id task_id task code
  else update_task_output_step s theme_id task_id task code

/-- Update step for the `task_info` resource (src/routers/tasks.py lines
112-129): when title or description is truthy, load the stored info record,
overlay each truthy field (a falsy field keeps its stored value), and save it
back.  The save sits outside the `try`, so its exceptions would be uncaught. -/
def update_task_info_step (s : Storage) (theme_id : Nat) (task_id : Int)
    (task : TaskUpdate) (code : List Nat) : Storage × Except ApiError TaskUpdate :=
  if strTruthy task.title || strTruthy task.description then
    match FileUtils.open_file_task_info s theme_id task_id with
    | .error .fileNotFound => (s, .error .notFoundTask)
    | .error .indexError => (s, .error .notFoundTheme)
    | .ok task_info =>
      match FileUtils.save_file_task_info s
        { task_info with
          title := if strTruthy task.title then task.title.getD task_info.title
                   else task_info.title,
          description := if strTruthy task.description then
                           task.description.getD task_info.description
                         else task_info.description }
        theme_id task_id with
      | .error _ => (s, .error .internal)
      | .ok s1 => update_task_input_step s1 theme_id task_id task code
  else update_task_input_step s theme_id task_id task code

/-- Shallow embedding of `update_task` (src/routers/tasks.py lines 90-158):
force the path identifiers into the payload, reject a request whose five
candidate values are all falsy as `EmptyRequest`, then run the four update
steps in order; the first raised error aborts the remaining steps while
keeping the writes already performed. -/
def update_task (s : Storage) (theme_id : Nat) (task_id : Int)
    (task0 : TaskUpdate) (code : List Nat) : Storage × Except ApiError TaskUpdate :=
  let task := { task0 with theme_id := some theme_id, id := some task_id }
  if !(strTruthy task.title || strTruthy task.description ||
       listTruthy task.input || listTruthy task.output || bytesTruthy code) then
    (s, .error .emptyRequest)
  else update_task_info_step s theme_id task_id task code

/-- Shallow embedding of `delete_task` (src/routers/tasks.py lines 166-183):
attempt removal of info, input, output and code in that order; a removal
failure raises its 404 at once, so the remaining kinds are not attempted.
After the four removals the whole index is loaded with no range check and the
theme's count is decremented; an out-of-range position there would be an
uncaught `IndexError` (`internal`). -/
def delete_task (s : Storage) (task_id : Int) (theme_id : Nat) :
    Storage × Except ApiError Unit :=
  match FileUtils.remove_file_task_info s theme_id task_id with
  | .error e => (s, .error (notFoundOf e))
  | .ok s1 =>
    match FileUtils.remove_file_task_input s1 theme_id task_id with
    | .error e => (s1, .error (notFoundOf e))
    | .ok s2 =>
      match FileUtils.remove_file_task_output s2 theme_id task_id with
      | .error e => (s2, .error (notFoundOf e))
      | .ok s3 =>
        match FileUtils.remove_file_task_code s3 theme_id task_id with
        | .error e => (s3, .error (notFoundOf e))
        | .ok s4 =>
          let themes := FileUtils.open_file_theme_index s4
          if theme_id < themes.length then
            (FileUtils.save_file_theme_index s4
              (themes.set theme_id
                { themes.getD theme_id ⟨0, 0⟩ with
                  count := (themes.getD theme_id ⟨0, 0⟩).count - 1 }),
             .ok ())
          else (s4, .error .internal)

/-- Driver for the sequential-creation property: run `create_task` once per
payload, threading the storage state, and collect the results in order. -/
def create_seq (s : Storage) (theme_id : Nat) :
    List (TaskCreate × List Nat) → Storage × List (Except ApiError Task)
  | [] => (s, [])
  | (t, c) :: rest =>
    let r := create_task s theme_id t c
    let r2 := create_seq r.1 theme_id rest
    (r2.1, r.2 :: r2.2)

/-- Storage with one theme (position 0, count 0) and no task resources. -/
def sampleTheme0 : Storage :=
  { themeIndex := [⟨1, 0⟩], info := [], inputVals := [], outputVals := [],
    codeFiles := [] }

/-- Storage with one theme (position 0, count 1) holding the four resources of
task 1. -/
def sampleStored : Storage :=
  { themeIndex := [⟨1, 1⟩],
    info := [((0, 1), ⟨1, 0, "title0", "descr0"⟩)],
    inputVals := [((0, 1), [1])],
    outputVals := [((0, 1), [2])],
    codeFiles := [((0, 1), [40])] }

/-- Storage where task 1 of theme 0 has its info resource missing while its
input resource still exists (a corrupted, partially present task). -/
def sampleCorrupt : Storage :=
  { themeIndex := [⟨1, 1⟩], info := [], inputVals := [((0, 1), [5])],
    outputVals := [], codeFiles := [] }

/-- A create payload used by concrete instances. -/
def samplePayload : TaskCreate := ⟨"A", "B", [1], [2]⟩

/-- An update payload supplying only a title. -/
def titleOnlyUpdate : TaskUpdate := ⟨none, none, some "T", none, none, none⟩

/-- An update payload supplying only input values. -/
def inputOnlyUpdate : TaskUpdate := ⟨none, none, none, none, some [3], none⟩

/-- An update payload whose only supplied values are empty (falsy). -/
def emptyValuesUpdate : TaskUpdate := ⟨none, none, some "", none, some [], none⟩

/-- The update payload with every field absent. -/
def absentUpdate : TaskUpdate := ⟨none, none, none, none, none, none⟩

/-- Relation between a resource store before and after one handler step: when
`w` is false the step never writes this store and it is unchanged; when `w` is
true the step may additionally have overwritten the single key `q`. -/
def MayWrite {α : Type} (old new : List ((Nat × Int) × α)) (q : Nat × Int)
    (w : Bool) : Prop :=
  if w then new = old ∨ ∃ v, new = resSet old q v else new = old

theorem resLookup_resErase {α : Type} (st : List ((Nat × Int) × α))
    (q k : Nat × Int) :
    resLookup (resErase st q) k = if q = k then none else resLookup st k := by
  induction st with
  | nil => by_cases h : q = k <;> simp [resErase, resLookup, h]
  | cons p rest ih =>
    obtain ⟨kp, v⟩ := p
    by_cases hp : kp = q <;> by_cases hq : q = k <;>
      simp_all [resErase, resLookup]

theorem resLookup_resSet {α : Type} (st : List ((Nat × Int) × α))
    (q k : Nat × Int) (v : α) :
    resLookup (resSet st q v) k = if q = k then some v else resLookup st k := by
  by_cases h : q = k <;> simp [resSet, resLookup, h, resLookup_resErase]

theorem MayWrite_lookup_ne {α : Type} {old new : List ((Nat × Int) × α)}
    {q k : Nat × Int} {w : Bool} (h : MayWrite old new q w) (hk : k ≠ q) :
    resLookup new k = resLookup old k := by
  unfold MayWrite at h
  cases w with
  | false => simp only [if_neg Bool.false_ne_true] at h; rw [h]
  | true =>
    simp only [if_pos rfl] at h
    rcases h with h | ⟨v, h⟩
    · rw [h]
    · rw [h, resLookup_resSet, if_neg (fun hh => hk hh.symm)]

theorem MayWrite_refl {α : Type} (st : List ((Nat × Int) × α)) (q : Nat × Int)
    (w : Bool) : MayWrite st st q w := by
  cases w <;> simp [MayWrite]

theorem getD_set_self (l : List ThemeEntry) (i : Nat) (e d : ThemeEntry)
    (h : i < l.length) : (l.set i e).getD i d = e := by
  simp [List.getD, List.getElem?_set_self, h]

theorem save_file_task_info_eq (s : Storage) (d : TaskInfo) (θ : Nat) (i : Int) :
    FileUtils.save_file_task_info s d θ i =
      if θ < s.themeIndex.length then
        .ok { s with info := resSet s.info (θ, i) d }
      else .error .indexError := by
  unfold FileUtils.save_file_task_info saveRes
  split <;> rfl

theorem save_file_values_task_input_eq (s : Storage) (c : List Int) (θ : Nat) (i : Int) :
    FileUtils.save_file_values_task_input s c θ i =
      if θ < s.themeIndex.length then
        .ok { s with inputVals := resSet s.inputVals (θ, i) c }
      else .error .indexError := by
  unfold FileUtils.save_file_values_task_input saveRes
  split <;> rfl

theorem save_file_values_task_output_eq (s : Storage) (c : List Int) (θ : Nat) (i : Int) :
    FileUtils.save_file_values_task_output s c θ i =
      if θ < s.themeIndex.length then
        .ok { s with outputVals := resSet s.outputVals (θ, i) c }
      else .error .indexError := by
  unfold FileUtils.save_file_values_task_output saveRes
  split <;> rfl

theorem save_file_task_code_eq (s : Storage) (c : List Nat) (θ : Nat) (i : Int) :
    FileUtils.save_file_task_code s c θ i =
      if θ < s.themeIndex.length then
        .ok { s with codeFiles := resSet s.codeFiles (θ, i) c }
      else .error .indexError := by
  unfold FileUtils.save_file_task_code saveRes
  split <;> rfl

theorem remove_file_task_info_eq (s : Storage) (θ : Nat) (i : Int) :
    FileUtils.remove_file_task_info s θ i =
      if θ < s.themeIndex.length then
        match resLookup s.info (θ, i) with
        | some _ => .ok { s with info := resErase s.info (θ, i) }
        | none => .error .fileNotFound
      else .error .indexError := by
  unfold FileUtils.remove_file_task_info removeRes
  split
  · cases hl : resLookup s.info (θ, i) <;> simp [hl, Except.map]
  · rfl

theorem remove_file_task_input_eq (s : Storage) (θ : Nat) (i : Int) :
    FileUtils.remove_file_task_input s θ i =
      if θ < s.themeIndex.length then
        match resLookup s.inputVals (θ, i) with
        | some _ => .ok { s with inputVals := resErase s.inputVals (θ, i) }
        | none => .error .fileNotFound
      else .error .indexError := by
  unfold FileUtils.remove_file_task_input removeRes
  split
  · cases hl : resLookup s.inputVals (θ, i) <;> simp [hl, Except.map]
  · rfl

theorem remove_file_task_output_eq (s : Storage) (θ : Nat) (i : Int) :
    FileUtils.remove_file_task_output s θ i =
      if θ < s.themeIndex.length then
        match resLookup s.outputVals (θ, i) with
        | some _ => .ok { s with outputVals := resErase s.outputVals (θ, i) }
        | none => .error .fileNotFound
      else .error .indexError := by
  unfold FileUtils.remove_file_task_output removeRes
  split
  · cases hl : resLookup s.outputVals (θ, i) <;> simp [hl, Except.map]
  · rfl

theorem remove_file_task_code_eq (s : Storage) (θ : Nat) (i : Int) :
    FileUtils.remove_file_task_code s θ i =
      if θ < s.themeIndex.length then
        match resLookup s.codeFiles (θ, i) with
        | some _ => .ok { s with codeFiles := resErase s.codeFiles (θ, i) }
        | none => .error .fileNotFound
      else .error .indexError := by
  unfold FileUtils.remove_file_task_code removeRes
  split
  · cases hl : resLookup s.codeFiles (θ, i) <;> simp [hl, Except.map]
  · rfl

theorem create_task_eq (s : Storage) (θ : Nat) (t : TaskCreate) (c : List Nat)
    (h : θ < s.themeIndex.length) :
    create_task s θ t c =
      ({ themeIndex := s.themeIndex.set θ
            { s.themeIndex.getD θ ⟨0, 0⟩ with
              count := (s.themeIndex.getD θ ⟨0, 0⟩).count + 1 },
         info := resSet s.info (θ, (s.themeIndex.getD θ ⟨0, 0⟩).count + 1)
            ⟨(s.themeIndex.getD θ ⟨0, 0⟩).count + 1, θ, t.title, t.description⟩,
         inputVals := resSet s.inputVals
            (θ, (s.themeIndex.getD θ ⟨0, 0⟩).count + 1) t.input,
         outputVals := resSet s.outputVals
            (θ, (s.themeIndex.getD θ ⟨0, 0⟩).count + 1) t.output,
         codeFiles := resSet s.codeFiles
            (θ, (s.themeIndex.getD θ ⟨0, 0⟩).count + 1) c },
       .ok { id := (s.themeIndex.getD θ ⟨0, 0⟩).count + 1, theme_id := θ,
             title := t.title, description := t.description,
             input := t.input, output := t.output }) := by
  simp [create_task, FileUtils.open_file_theme_index_checked, h,
    save_file_task_info_eq, save_file_values_task_input_eq,
    save_file_values_task_output_eq, save_file_task_code_eq,
    FileUtils.save_file_theme_index]

theorem create_seq_spec (θ : Nat) (ps : List (TaskCreate × List Nat)) :
    ∀ s : Storage, θ < s.themeIndex.length →
      θ < (create_seq s θ ps).1.themeIndex.length ∧
      ((create_seq s θ ps).1.themeIndex.getD θ ⟨0, 0⟩).count
        = (s.themeIndex.getD θ ⟨0, 0⟩).count + ps.length ∧
      (create_seq s θ ps).2.map (fun r => r.toOption.map Task.id)
        = (List.range ps.length).map
            (fun j : Nat => some ((s.themeIndex.getD θ ⟨0, 0⟩).count + 1 + (j : Int))) := by
  induction ps with
  | nil => intro s h; simpa [create_seq] using h
  | cons p rest ih =>
    intro s h
    obtain ⟨t, c⟩ := p
    have hstep := create_task_eq s θ t c h
    have h1 : (create_task s θ t c).1.themeIndex
        = s.themeIndex.set θ
            { s.themeIndex.getD θ ⟨0, 0⟩ with
              count := (s.themeIndex.getD θ ⟨0, 0⟩).count + 1 } := by
      rw [hstep]
    have hlen : θ < (create_task s θ t c).1.themeIndex.length := by
      rw [h1]; simpa using h
    have hcount : ((create_task s θ t c).1.themeIndex.getD θ ⟨0, 0⟩).count
        = (s.themeIndex.getD θ ⟨0, 0⟩).count + 1 := by
      rw [h1, getD_set_self _ _ _ _ h]
    have h2 : (create_task s θ t c).2
        = .ok { id := (s.themeIndex.getD θ ⟨0, 0⟩).count + 1, theme_id := θ,
                title := t.title, description := t.description,
                input := t.input, output := t.output } := by
      rw [hstep]
    obtain ⟨ih1, ih2, ih3⟩ := ih (create_task s θ t c).1 hlen
    simp only [create_seq]
    simp only [List.length_cons]
    refine ⟨ih1, ?_, ?_⟩
    · rw [ih2, hcount]
      push_cast
      ring
    · rw [List.map_cons, ih3, h2, List.range_succ_eq_map, List.map_cons,
          List.map_map, List.cons_eq_cons]
      simp only [hcount]
      refine ⟨?_, ?_⟩
      · simp [Except.toOption]
      · apply List.map_congr_left
        intro j hj
        simp only [Function.comp]
        congr 1
        push_cast
        ring

theorem update_task_code_step_writes (s : Storage) (θ : Nat) (i : Int)
    (task : TaskUpdate) (code : List Nat) :
    (update_task_code_step s θ i task code).1.themeIndex = s.themeIndex ∧
    (update_task_code_step s θ i task code).1.info = s.info ∧
    (update_task_code_step s θ i task code).1.inputVals = s.inputVals ∧
    (update_task_code_step s θ i task code).1.outputVals = s.outputVals ∧
    MayWrite s.codeFiles (update_task_code_step s θ i task code).1.codeFiles
      (θ, i) (bytesTruthy code) := by
  unfold update_task_code_step
  by_cases h5 : bytesTruthy code
  · rw [if_pos h5, save_file_task_code_eq]
    by_cases hθ : θ < s.themeIndex.length
    · rw [if_pos hθ]
      refine ⟨rfl, rfl, rfl, rfl, ?_⟩
      show MayWrite s.codeFiles (resSet s.codeFiles (θ, i) code) (θ, i)
        (bytesTruthy code)
      unfold MayWrite
      rw [if_pos h5]
      exact Or.inr ⟨code, rfl⟩
    · rw [if_neg hθ]
      exact ⟨rfl, rfl, rfl, rfl, MayWrite_refl _ _ _⟩
  · rw [if_neg h5]
    exact ⟨rfl, rfl, rfl, rfl, MayWrite_refl _ _ _⟩

theorem update_task_output_step_writes (s : Storage) (θ : Nat) (i : Int)
    (task : TaskUpdate) (code : List Nat) :
    (update_task_output_step s θ i task code).1.themeIndex = s.themeIndex ∧
    (update_task_output_step s θ i task code).1.info = s.info ∧
    (update_task_output_step s θ i task code).1.inputVals = s.inputVals ∧
    MayWrite s.outputVals (update_task_output_step s θ i task code).1.outputVals
      (θ, i) (listTruthy task.output) ∧
    MayWrite s.codeFiles (update_task_output_step s θ i task code).1.codeFiles
      (θ, i) (bytesTruthy code) := by
  unfold update_task_output_step
  by_cases h4 : listTruthy task.output
  · rw [if_pos h4, save_file_values_task_output_eq]
    by_cases hθ : θ < s.themeIndex.length
    · rw [if_pos hθ]
      obtain ⟨c1, c2, c3, c4, c5⟩ := update_task_code_step_writes
        { s with outputVals := resSet s.outputVals (θ, i) (task.output.getD []) }
        θ i task code
      refine ⟨c1, c2, c3, ?_, c5⟩
      unfold MayWrite
      rw [if_pos h4]
      exact Or.inr ⟨task.output.getD [], c4⟩
    · rw [if_neg hθ]
      exact ⟨rfl, rfl, rfl, MayWrite_refl _ _ _, MayWrite_refl _ _ _⟩
  · rw [if_neg h4]
    obtain ⟨c1, c2, c3, c4, c5⟩ := update_task_code_step_writes s θ i task code
    refine ⟨c1, c2, c3, ?_, c5⟩
    unfold MayWrite
    rw [if_neg h4]
    exact c4

theorem update_task_input_step_writes (s : Storage) (θ : Nat) (i : Int)
    (task : TaskUpdate) (code : List Nat) :
    (update_task_input_step s θ i task code).1.themeIndex = s.themeIndex ∧
    (update_task_input_step s θ i task code).1.info = s.info ∧
    MayWrite s.inputVals (update_task_input_step s θ i task code).1.inputVals
      (θ, i) (listTruthy task.input) ∧
    MayWrite s.outputVals (update_task_input_step s θ i task code).1.outputVals
      (θ, i) (listTruthy task.output) ∧
    MayWrite s.codeFiles (update_task_input_step s θ i task code).1.codeFiles
      (θ, i) (bytesTruthy code) := by
  unfold update_task_input_step
  by_cases h3 : listTruthy task.input
  · rw [if_pos h3, save_file_values_task_input_eq]
    by_cases hθ : θ < s.themeIndex.length
    · rw [if_pos hθ]
      obtain ⟨c1, c2, c3, c4, c5⟩ := update_task_output_step_writes
        { s with inputVals := resSet s.inputVals (θ, i) (task.input.getD []) }
        θ i task code
      refine ⟨c1, c2, ?_, c4, c5⟩
      unfold MayWrite
      rw [if_pos h3]
      exact Or.inr ⟨task.input.getD [], c3⟩
    · rw [if_neg hθ]
      exact ⟨rfl, rfl, MayWrite_refl _ _ _, MayWrite_refl _ _ _,
        MayWrite_refl _ _ _⟩
  · rw [if_neg h3]
    obtain ⟨c1, c2, c3, c4, c5⟩ := update_task_output_step_writes s θ i task code
    refine ⟨c1, c2, ?_, c4, c5⟩
    unfold MayWrite
    rw [if_neg h3]
    exact c3

theorem update_task_info_step_writes (s : Storage) (θ : Nat) (i : Int)
    (task : TaskUpdate) (code : List Nat) :
    (update_task_info_step s θ i task code).1.themeIndex = s.themeIndex ∧
    MayWrite s.info (update_task_info_step s θ i task code).1.info
      (θ, i) (strTruthy task.title || strTruthy task.description) ∧
    MayWrite s.inputVals (update_task_info_step s θ i task code).1.inputVals
      (θ, i) (listTruthy task.input) ∧
    MayWrite s.outputVals (update_task_info_step s θ i task code).1.outputVals
      (θ, i) (listTruthy task.output) ∧
    MayWrite s.codeFiles (update_task_info_step s θ i task code).1.codeFiles
      (θ, i) (bytesTruthy code) := by
  unfold update_task_info_step FileUtils.open_file_task_info openRes
  by_cases h12 : (strTruthy task.title || strTruthy task.description)
  · by_cases hθ : θ < s.themeIndex.length
    · cases hl : resLookup s.info (θ, i) with
      | none =>
        simp only [if_pos h12, if_pos hθ, hl]
        exact ⟨by trivial, MayWrite_refl _ _ _, MayWrite_refl _ _ _,
          MayWrite_refl _ _ _, MayWrite_refl _ _ _⟩
      | some info0 =>
        simp only [if_pos h12, if_pos hθ, hl, save_file_task_info_eq]
        obtain ⟨c1, c2, c3, c4, c5⟩ := update_task_input_step_writes
          (Storage.mk s.themeIndex
            (resSet s.info (θ, i)
              (TaskInfo.mk info0.id info0.theme_id
                (if strTruthy task.title then task.title.getD info0.title
                 else info0.title)
                (if strTruthy task.description then
                   task.description.getD info0.description
                 else info0.description)))
            s.inputVals s.outputVals s.codeFiles)
          θ i task code
        refine ⟨c1, ?_, c3, c4, c5⟩
        unfold MayWrite
        rw [if_pos h12]
        exact Or.inr ⟨_, c2⟩
    · simp only [if_pos h12, if_neg hθ]
      exact ⟨by trivial, MayWrite_refl _ _ _, MayWrite_refl _ _ _,
        MayWrite_refl _ _ _, MayWrite_refl _ _ _⟩
  · simp only [if_neg h12]
    obtain ⟨c1, c2, c3, c4, c5⟩ := update_task_input_step_writes s θ i task code
    refine ⟨c1, ?_, c3, c4, c5⟩
    unfold MayWrite
    rw [if_neg h12]
    exact c2

theorem update_task_info_step_title_of (s : Storage) (θ : Nat) (i : Int)
    (task : TaskUpdate) (code : List Nat) (h1 : strTruthy task.title = false) :
    (resLookup (update_task_info_step s θ i task code).1.info (θ, i)).map
        TaskInfo.title
      = (resLookup s.info (θ, i)).map TaskInfo.title := by
  unfold update_task_info_step FileUtils.open_file_task_info openRes
  by_cases h12 : (strTruthy task.title || strTruthy task.description)
  · by_cases hθ : θ < s.themeIndex.length
    · cases hl : resLookup s.info (θ, i) with
      | none => simp only [if_pos h12, if_pos hθ, hl]
      | some info0 =>
        simp only [if_pos h12, if_pos hθ, hl, save_file_task_info_eq]
        obtain ⟨-, c2, -, -, -⟩ := update_task_input_step_writes
          (Storage.mk s.themeIndex
            (resSet s.info (θ, i)
              (TaskInfo.mk info0.id info0.theme_id
                (if strTruthy task.title then task.title.getD info0.title
                 else info0.title)
                (if strTruthy task.description then
                   task.description.getD info0.description
                 else info0.description)))
            s.inputVals s.outputVals s.codeFiles)
          θ i task code
        rw [c2]
        simp [resLookup_resSet, h1]
    · simp only [if_pos h12, if_neg hθ]
  · simp only [if_neg h12]
    obtain ⟨-, c2, -, -, -⟩ := update_task_input_step_writes s θ i task code
    rw [c2]

theorem update_task_info_step_description_of (s : Storage) (θ : Nat) (i : Int)
    (task : TaskUpdate) (code : List Nat)
    (h2 : strTruthy task.description = false) :
    (resLookup (update_task_info_step s θ i task code).1.info (θ, i)).map
        TaskInfo.description
      = (resLookup s.info (θ, i)).map TaskInfo.description := by
  unfold update_task_info_step FileUtils.open_file_task_info openRes
  by_cases h12 : (strTruthy task.title || strTruthy task.description)
  · by_cases hθ : θ < s.themeIndex.length
    · cases hl : resLookup s.info (θ, i) with
      | none => simp only [if_pos h12, if_pos hθ, hl]
      | some info0 =>
        simp only [if_pos h12, if_pos hθ, hl, save_file_task_info_eq]
        obtain ⟨-, c2, -, -, -⟩ := update_task_input_step_writes
          (Storage.mk s.themeIndex
            (resSet s.info (θ, i)
              (TaskInfo.mk info0.id info0.theme_id
                (if strTruthy task.title then task.title.getD info0.title
                 else info0.title)
                (if strTruthy task.description then
                   task.description.getD info0.description
                 else info0.description)))
            s.inputVals s.outputVals s.codeFiles)
          θ i task code
        rw [c2]
        simp [resLookup_resSet, h2]
    · simp only [if_pos h12, if_neg hθ]
  · simp only [if_neg h12]
    obtain ⟨-, c2, -, -, -⟩ := update_task_input_step_writes s θ i task code
    rw [c2]

theorem update_task_code_step_snd_ok (s : Storage) (θ : Nat) (i : Int)
    (task : TaskUpdate) (code : List Nat) (hθ : θ < s.themeIndex.length) :
    (update_task_code_step s θ i task code).2 = .ok task := by
  unfold update_task_code_step
  by_cases h5 : bytesTruthy code
  · rw [if_pos h5, save_file_task_code_eq, if_pos hθ]
  · rw [if_neg h5]

theorem update_task_output_step_snd_ok (s : Storage) (θ : Nat) (i : Int)
    (task : TaskUpdate) (code : List Nat) (hθ : θ < s.themeIndex.length) :
    (update_task_output_step s θ i task code).2 = .ok task := by
  unfold update_task_output_step
  by_cases h4 : listTruthy task.output
  · rw [if_pos h4, save_file_values_task_output_eq, if_pos hθ]
    exact update_task_code_step_snd_ok _ θ i task code hθ
  · rw [if_neg h4]
    exact update_task_code_step_snd_ok _ θ i task code hθ

theorem update_task_input_step_snd_ok (s : Storage) (θ : Nat) (i : Int)
    (task : TaskUpdate) (code : List Nat) (hθ : θ < s.themeIndex.length) :
    (update_task_input_step s θ i task code).2 = .ok task := by
  unfold update_task_input_step
  by_cases h3 : listTruthy task.input
  · rw [if_pos h3, save_file_values_task_input_eq, if_pos hθ]
    exact update_task_output_step_snd_ok _ θ i task code hθ
  · rw [if_neg h3]
    exact update_task_output_step_snd_ok _ θ i task code hθ

theorem update_task_code_step_ok_eq {s : Storage} {θ : Nat} {i : Int}
    {task u : TaskUpdate} {code : List Nat}
    (h : (update_task_code_step s θ i task code).2 = .ok u) : u = task := by
  unfold update_task_code_step at h
  by_cases h5 : bytesTruthy code
  · rw [if_pos h5, save_file_task_code_eq] at h
    by_cases hθ : θ < s.themeIndex.length
    · rw [if_pos hθ] at h
      simpa using h.symm
    · rw [if_neg hθ] at h
      simp at h
  · rw [if_neg h5] at h
    simpa using h.symm

theorem update_task_output_step_ok_eq {s : Storage} {θ : Nat} {i : Int}
    {task u : TaskUpdate} {code : List Nat}
    (h : (update_task_output_step s θ i task code).2 = .ok u) : u = task := by
  unfold update_task_output_step at h
  by_cases h4 : listTruthy task.output
  · rw [if_pos h4, save_file_values_task_output_eq] at h
    by_cases hθ : θ < s.themeIndex.length
    · rw [if_pos hθ] at h
      exact update_task_code_step_ok_eq h
    · rw [if_neg hθ] at h
      simp at h
  · rw [if_neg h4] at h
    exact update_task_code_step_ok_eq h

theorem update_task_input_step_ok_eq {s : Storage} {θ : Nat} {i : Int}
    {task u : TaskUpdate} {code : List Nat}
    (h : (update_task_input_step s θ i task code).2 = .ok u) : u = task := by
  unfold update_task_input_step at h
  by_cases h3 : listTruthy task.input
  · rw [if_pos h3, save_file_values_task_input_eq] at h
    by_cases hθ : θ < s.themeIndex.length
    · rw [if_pos hθ] at h
      exact update_task_output_step_ok_eq h
    · rw [if_neg hθ] at h
      simp at h
  · rw [if_neg h3] at h
    exact update_task_output_step_ok_eq h

theorem update_task_info_step_ok_eq {s : Storage} {θ : Nat} {i : Int}
    {task u : TaskUpdate} {code : List Nat}
    (h : (update_task_info_step s θ i task code).2 = .ok u) : u = task := by
  unfold update_task_info_step FileUtils.open_file_task_info openRes at h
  by_cases h12 : (strTruthy task.title || strTruthy task.description)
  · by_cases hθ : θ < s.themeIndex.length
    · cases hl : resLookup s.info (θ, i) with
      | none =>
        simp only [if_pos h12, if_pos hθ, hl] at h
        simp at h
      | some info0 =>
        simp only [if_pos h12, if_pos hθ, hl, save_file_task_info_eq] at h
        exact update_task_input_step_ok_eq h
    · simp only [if_pos h12, if_neg hθ] at h
      simp at h
  · simp only [if_neg h12] at h
    exact update_task_input_step_ok_eq h

theorem update_task_empty_eq (s : Storage) (θ : Nat) (i : Int)
    (t0 : TaskUpdate) (code : List Nat)
    (hB : (strTruthy t0.title || strTruthy t0.description ||
           listTruthy t0.input || listTruthy t0.output ||
           bytesTruthy code) = false) :
    update_task s θ i t0 code = (s, .error .emptyRequest) := by
  simp only [update_task]
  rw [if_pos]
  simp [hB]

theorem update_task_nonempty_eq (s : Storage) (θ : Nat) (i : Int)
    (t0 : TaskUpdate) (code : List Nat)
    (hB : (strTruthy t0.title || strTruthy t0.description ||
           listTruthy t0.input || listTruthy t0.output ||
           bytesTruthy code) = true) :
    update_task s θ i t0 code =
      update_task_info_step s θ i
        { t0 with theme_id := some θ, id := some i } code := by
  simp only [update_task]
  rw [if_neg]
  simp [hB]

theorem update_task_ok_eq {s : Storage} {θ : Nat} {i : Int}
    {t0 u : TaskUpdate} {code : List Nat}
    (h : (update_task s θ i t0 code).2 = .ok u) :
    u = { t0 with theme_id := some θ, id := some i } := by
  by_cases hB : (strTruthy t0.title || strTruthy t0.description ||
      listTruthy t0.input || listTruthy t0.output || bytesTruthy code) = true
  · rw [update_task_nonempty_eq s θ i t0 code hB] at h
    exact update_task_info_step_ok_eq h
  · rw [update_task_empty_eq s θ i t0 code (by simpa using hB)] at h
    simp at h

theorem MayWrite_eq_of_false {α : Type} {old new : List ((Nat × Int) × α)}
    {q : Nat × Int} {w : Bool} (h : MayWrite old new q w) (hw : w = false) :
    new = old := by
  unfold MayWrite at h
  rw [hw] at h
  simpa using h

theorem update_task_writes (s : Storage) (θ : Nat) (i : Int)
    (t0 : TaskUpdate) (code : List Nat) :
    (update_task s θ i t0 code).1.themeIndex = s.themeIndex ∧
    MayWrite s.info (update_task s θ i t0 code).1.info (θ, i)
      (strTruthy t0.title || strTruthy t0.description) ∧
    MayWrite s.inputVals (update_task s θ i t0 code).1.inputVals (θ, i)
      (listTruthy t0.input) ∧
    MayWrite s.outputVals (update_task s θ i t0 code).1.outputVals (θ, i)
      (listTruthy t0.output) ∧
    MayWrite s.codeFiles (update_task s θ i t0 code).1.codeFiles (θ, i)
      (bytesTruthy code) := by
  by_cases hB : (strTruthy t0.title || strTruthy t0.description ||
      listTruthy t0.input || listTruthy t0.output || bytesTruthy code) = true
  · rw [update_task_nonempty_eq s θ i t0 code hB]
    exact update_task_info_step_writes s θ i
      { t0 with theme_id := some θ, id := some i } code
  · rw [update_task_empty_eq s θ i t0 code (by simpa using hB)]
    exact ⟨rfl, MayWrite_refl _ _ _, MayWrite_refl _ _ _, MayWrite_refl _ _ _,
      MayWrite_refl _ _ _⟩

theorem update_task_input_step_skip (s : Storage) (θ : Nat) (i : Int)
    (task : TaskUpdate) (code : List Nat)
    (h3 : listTruthy task.input = false) (h4 : listTruthy task.output = false)
    (h5 : bytesTruthy code = false) :
    update_task_input_step s θ i task code = (s, .ok task) := by
  unfold update_task_input_step update_task_output_step update_task_code_step
  rw [if_neg (by simp [h3]), if_neg (by simp [h4]), if_neg (by simp [h5])]

theorem delete_task_info_fails {s : Storage} {θ : Nat} {i : Int} {e : FsError}
    (h : FileUtils.remove_file_task_info s θ i = .error e) :
    delete_task s i θ = (s, .error (notFoundOf e)) := by
  unfold delete_task
  rw [h]

theorem delete_task_ok_eq {s s1 s2 s3 s4 : Storage} {θ : Nat} {i : Int}
    (h1 : FileUtils.remove_file_task_info s θ i = .ok s1)
    (h2 : FileUtils.remove_file_task_input s1 θ i = .ok s2)
    (h3 : FileUtils.remove_file_task_output s2 θ i = .ok s3)
    (h4 : FileUtils.remove_file_task_code s3 θ i = .ok s4)
    (hθ : θ < s4.themeIndex.length) :
    delete_task s i θ =
      (FileUtils.save_file_theme_index s4
        (s4.themeIndex.set θ
          { s4.themeIndex.getD θ ⟨0, 0⟩ with
            count := (s4.themeIndex.getD θ ⟨0, 0⟩).count - 1 }), .ok ()) := by
  unfold delete_task FileUtils.open_file_theme_index
  simp only [h1, h2, h3, h4, if_pos hθ]

/-- C1: for a valid position in the theme index, create assigns the new task
id `count + 1`, persists the info record, the input values, the output values
and the code blob under that id, sets the theme's count to the new id, and
returns the task carrying the assigned id and theme_id with the payload
fields; consequently, after N sequential creates starting from count 0 the
count is N and the returned ids are 1..N. -/
theorem C1_create_assigns_sequential_ids :
    (∀ (s : Storage) (θ : Nat) (t : TaskCreate) (c : List Nat),
      θ < s.themeIndex.length →
      (create_task s θ t c).2 =
        .ok { id := (s.themeIndex.getD θ ⟨0, 0⟩).count + 1, theme_id := θ,
              title := t.title, description := t.description,
              input := t.input, output := t.output } ∧
      resLookup (create_task s θ t c).1.info
          (θ, (s.themeIndex.getD θ ⟨0, 0⟩).count + 1)
        = some ⟨(s.themeIndex.getD θ ⟨0, 0⟩).count + 1, θ, t.title,
                t.description⟩ ∧
      resLookup (create_task s θ t c).1.inputVals
          (θ, (s.themeIndex.getD θ ⟨0, 0⟩).count + 1) = some t.input ∧
      resLookup (create_task s θ t c).1.outputVals
          (θ, (s.themeIndex.getD θ ⟨0, 0⟩).count + 1) = some t.output ∧
      resLookup (create_task s θ t c).1.codeFiles
          (θ, (s.themeIndex.getD θ ⟨0, 0⟩).count + 1) = some c ∧
      ((create_task s θ t c).1.themeIndex.getD θ ⟨0, 0⟩).count
        = (s.themeIndex.getD θ ⟨0, 0⟩).count + 1) ∧
    (∀ (s : Storage) (θ : Nat) (ps : List (TaskCreate × List Nat)),
      θ < s.themeIndex.length →
      (s.themeIndex.getD θ ⟨0, 0⟩).count = 0 →
      ((create_seq s θ ps).1.themeIndex.getD θ ⟨0, 0⟩).count = ps.length ∧
      (create_seq s θ ps).2.map (fun r => r.toOption.map Task.id)
        = (List.range ps.length).map (fun j : Nat => some ((j : Int) + 1))) := by
  constructor
  · intro s θ t c h
    have hstep := create_task_eq s θ t c h
    rw [hstep]
    refine ⟨rfl, ?_, ?_, ?_, ?_, ?_⟩
    all_goals simp [resLookup_resSet, List.getD, List.getElem?_set_self, h]
  · intro s θ ps h h0
    obtain ⟨-, i2, i3⟩ := create_seq_spec θ ps s h
    rw [h0] at i2 i3
    refine ⟨by rw [i2]; ring, ?_⟩
    rw [i3]
    apply List.map_congr_left
    intro j hj
    congr 1
    ring

/-- Witness for C1: two sequential creates on the fresh one-theme storage
leave the count at 2 and return the ids 1 and 2. -/
theorem C1_create_assigns_sequential_ids_witness :
    ((create_seq sampleTheme0 0 [(samplePayload, [40]), (samplePayload, [41])]).1.themeIndex.getD
        0 ⟨0, 0⟩).count = 2 ∧
    (create_seq sampleTheme0 0
        [(samplePayload, [40]), (samplePayload, [41])]).2.map
        (fun r => r.toOption.map Task.id)
      = [some 1, some 2] := by
  obtain ⟨w1, w2⟩ := C1_create_assigns_sequential_ids.2 sampleTheme0 0
    [(samplePayload, [40]), (samplePayload, [41])] (by decide) (by decide)
  refine ⟨by rw [w1]; rfl, ?_⟩
  rw [w2]
  decide

/-- C2 counterexample: deleting task 1 of theme 0 in a storage where the info
resource is missing but the input resource exists fails `NotFoundTask` while
leaving the input resource in place, so the removal attempts for the
remaining kinds did not happen — refuting the claim that a failure does not
prevent them. -/
theorem C2_delete_no_short_circuit_counterexample :
    delete_task sampleCorrupt 1 0 = (sampleCorrupt, .error .notFoundTask) ∧
    resLookup (delete_task sampleCorrupt 1 0).1.inputVals (0, 1) = some [5] := by
  decide

/-- C2 amended: delete attempts the removals in the fixed order info, input,
output, code and stops at the first failure — earlier successful removals
persist and later kinds are not attempted — failing `NotFoundTheme` when the
failing removal raised `IndexError` and `NotFoundTask` when it raised
`FileNotFoundError`. -/
theorem C2_delete_stops_at_first_failure (s : Storage) (θ : Nat) (i : Int) :
    (∀ e, FileUtils.remove_file_task_info s θ i = .error e →
      delete_task s i θ = (s, .error (notFoundOf e))) ∧
    (∀ s1 e, FileUtils.remove_file_task_info s θ i = .ok s1 →
      FileUtils.remove_file_task_input s1 θ i = .error e →
      delete_task s i θ = (s1, .error (notFoundOf e))) ∧
    (∀ s1 s2 e, FileUtils.remove_file_task_info s θ i = .ok s1 →
      FileUtils.remove_file_task_input s1 θ i = .ok s2 →
      FileUtils.remove_file_task_output s2 θ i = .error e →
      delete_task s i θ = (s2, .error (notFoundOf e))) ∧
    (∀ s1 s2 s3 e, FileUtils.remove_file_task_info s θ i = .ok s1 →
      FileUtils.remove_file_task_input s1 θ i = .ok s2 →
      FileUtils.remove_file_task_output s2 θ i = .ok s3 →
      FileUtils.remove_file_task_code s3 θ i = .error e →
      delete_task s i θ = (s3, .error (notFoundOf e))) := by
  refine ⟨?_, ?_, ?_, ?_⟩
  · intro e h
    unfold delete_task
    rw [h]
  · intro s1 e h0 h
    unfold delete_task
    simp only [h0, h]
  · intro s1 s2 e h0 h1 h
    unfold delete_task
    simp only [h0, h1, h]
  · intro s1 s2 s3 e h0 h1 h2 h
    unfold delete_task
    simp only [h0, h1, h2, h]

/-- Witness for the amended C2: the corrupted storage's delete stops at the
missing info resource. -/
theorem C2_delete_stops_at_first_failure_witness :
    delete_task sampleCorrupt 1 0
      = (sampleCorrupt, .error (notFoundOf .fileNotFound)) :=
  (C2_delete_stops_at_first_failure sampleCorrupt 0 1).1 .fileNotFound
    (by decide)

/-- C3: an update supplying only a (non-empty) title rewrites exactly the
stored info record's title; the stored description keeps its value and the
input, output and code stores are untouched, with a success response. -/
theorem C3_title_only_update_frame (s : Storage) (θ : Nat) (i : Int)
    (t0 : TaskUpdate) (code : List Nat) (info0 : TaskInfo)
    (hθ : θ < s.themeIndex.length)
    (hinfo : resLookup s.info (θ, i) = some info0)
    (h1 : strTruthy t0.title = true) (h2 : strTruthy t0.description = false)
    (h3 : listTruthy t0.input = false) (h4 : listTruthy t0.output = false)
    (h5 : bytesTruthy code = false) :
    (update_task s θ i t0 code).2
      = .ok { t0 with theme_id := some θ, id := some i } ∧
    resLookup (update_task s θ i t0 code).1.info (θ, i)
      = some { info0 with title := t0.title.getD info0.title } ∧
    (update_task s θ i t0 code).1.inputVals = s.inputVals ∧
    (update_task s θ i t0 code).1.outputVals = s.outputVals ∧
    (update_task s θ i t0 code).1.codeFiles = s.codeFiles ∧
    (update_task s θ i t0 code).1.themeIndex = s.themeIndex := by
  have hB : (strTruthy t0.title || strTruthy t0.description ||
      listTruthy t0.input || listTruthy t0.output || bytesTruthy code)
        = true := by
    simp [h1]
  rw [update_task_nonempty_eq s θ i t0 code hB]
  rw [show update_task_info_step s θ i
        { t0 with theme_id := some θ, id := some i } code
      = update_task_input_step
          (Storage.mk s.themeIndex
            (resSet s.info (θ, i)
              (TaskInfo.mk info0.id info0.theme_id
                (t0.title.getD info0.title) info0.description))
            s.inputVals s.outputVals s.codeFiles) θ i
          { t0 with theme_id := some θ, id := some i } code from ?_]
  · rw [update_task_input_step_skip _ θ i _ code (by simpa using h3)
      (by simpa using h4) h5]
    refine ⟨rfl, ?_, rfl, rfl, rfl, rfl⟩
    simp [resLookup_resSet]
  · unfold update_task_info_step FileUtils.open_file_task_info openRes
    rw [if_pos (by simp [h1]), if_pos hθ]
    simp only [hinfo, save_file_task_info_eq, if_pos hθ]
    simp [h1, h2]

/-- Witness for C3 at the stored sample task: updating only the title to "T"
keeps the description, input, output and code values. -/
theorem C3_title_only_update_frame_witness :
    (update_task sampleStored 0 1 titleOnlyUpdate []).2
      = .ok ⟨some 1, some 0, some "T", none, none, none⟩ ∧
    resLookup (update_task sampleStored 0 1 titleOnlyUpdate []).1.info (0, 1)
      = some ⟨1, 0, "T", "descr0"⟩ ∧
    (update_task sampleStored 0 1 titleOnlyUpdate []).1.inputVals
      = sampleStored.inputVals ∧
    (update_task sampleStored 0 1 titleOnlyUpdate []).1.outputVals
      = sampleStored.outputVals ∧
    (update_task sampleStored 0 1 titleOnlyUpdate []).1.codeFiles
      = sampleStored.codeFiles ∧
    (update_task sampleStored 0 1 titleOnlyUpdate []).1.themeIndex
      = sampleStored.themeIndex :=
  C3_title_only_update_frame sampleStored 0 1 titleOnlyUpdate []
    ⟨1, 0, "title0", "descr0"⟩ (by decide) rfl rfl rfl rfl rfl rfl

/-- C4: an update request with every updatable field absent and no code upload
fails with `EmptyRequest` (422) and leaves the storage exactly as it was. -/
theorem C4_empty_update_rejected (s : Storage) (θ : Nat) (i : Int)
    (t0 : TaskUpdate) (h1 : t0.title = none) (h2 : t0.description = none)
    (h3 : t0.input = none) (h4 : t0.output = none) :
    update_task s θ i t0 [] = (s, .error .emptyRequest) := by
  apply update_task_empty_eq
  simp [h1, h2, h3, h4, strTruthy, listTruthy, bytesTruthy]

/-- Witness for C4: the all-absent update on the stored sample is rejected
with the state untouched. -/
theorem C4_empty_update_rejected_witness :
    update_task sampleStored 0 1 absentUpdate []
      = (sampleStored, .error .emptyRequest) :=
  C4_empty_update_rejected sampleStored 0 1 absentUpdate rfl rfl rfl rfl

/-- C5: deleting a task whose four resources are stored removes all four (a
subsequent read fails `NotFoundTask`), decrements the owning theme's count by
exactly one, and returns no content. -/
theorem C5_delete_removes_and_decrements (s : Storage) (θ : Nat) (i : Int)
    (info0 : TaskInfo) (inp out : List Int) (cd : List Nat)
    (hθ : θ < s.themeIndex.length)
    (h1 : resLookup s.info (θ, i) = some info0)
    (h2 : resLookup s.inputVals (θ, i) = some inp)
    (h3 : resLookup s.outputVals (θ, i) = some out)
    (h4 : resLookup s.codeFiles (θ, i) = some cd) :
    (delete_task s i θ).2 = .ok () ∧
    resLookup (delete_task s i θ).1.info (θ, i) = none ∧
    resLookup (delete_task s i θ).1.inputVals (θ, i) = none ∧
    resLookup (delete_task s i θ).1.outputVals (θ, i) = none ∧
    resLookup (delete_task s i θ).1.codeFiles (θ, i) = none ∧
    (read_task (delete_task s i θ).1 θ i).2 = .error .notFoundTask ∧
    ((delete_task s i θ).1.themeIndex.getD θ ⟨0, 0⟩).count
      = (s.themeIndex.getD θ ⟨0, 0⟩).count - 1 := by
  have r1 : FileUtils.remove_file_task_info s θ i
      = .ok (Storage.mk s.themeIndex (resErase s.info (θ, i)) s.inputVals
          s.outputVals s.codeFiles) := by
    rw [remove_file_task_info_eq, if_pos hθ, h1]
  have r2 : FileUtils.remove_file_task_input
      (Storage.mk s.themeIndex (resErase s.info (θ, i)) s.inputVals
        s.outputVals s.codeFiles) θ i
      = .ok (Storage.mk s.themeIndex (resErase s.info (θ, i))
          (resErase s.inputVals (θ, i)) s.outputVals s.codeFiles) := by
    rw [remove_file_task_input_eq]
    simp [hθ, h2]
  have r3 : FileUtils.remove_file_task_output
      (Storage.mk s.themeIndex (resErase s.info (θ, i))
        (resErase s.inputVals (θ, i)) s.outputVals s.codeFiles) θ i
      = .ok (Storage.mk s.themeIndex (resErase s.info (θ, i))
          (resErase s.inputVals (θ, i)) (resErase s.outputVals (θ, i))
          s.codeFiles) := by
    rw [remove_file_task_output_eq]
    simp [hθ, h3]
  have r4 : FileUtils.remove_file_task_code
      (Storage.mk s.themeIndex (resErase s.info (θ, i))
        (resErase s.inputVals (θ, i)) (resErase s.outputVals (θ, i))
        s.codeFiles) θ i
      = .ok (Storage.mk s.themeIndex (resErase s.info (θ, i))
          (resErase s.inputVals (θ, i)) (resErase s.outputVals (θ, i))
          (resErase s.codeFiles (θ, i))) := by
    rw [remove_file_task_code_eq]
    simp [hθ, h4]
  rw [delete_task_ok_eq r1 r2 r3 r4 (by simpa using hθ)]
  refine ⟨rfl, ?_, ?_, ?_, ?_, ?_, ?_⟩
  · simp [FileUtils.save_file_theme_index, resLookup_resErase]
  · simp [FileUtils.save_file_theme_index, resLookup_resErase]
  · simp [FileUtils.save_file_theme_index, resLookup_resErase]
  · simp [FileUtils.save_file_theme_index, resLookup_resErase]
  · unfold read_task FileUtils.open_file_task_info openRes
    simp [FileUtils.save_file_theme_index, resLookup_resErase, hθ, notFoundOf]
  · simp [FileUtils.save_file_theme_index, List.getD, List.getElem?_set_self, hθ]

/-- Witness for C5: deleting the stored sample task empties all four stores
and brings the count back to 0. -/
theorem C5_delete_removes_and_decrements_witness :
    (delete_task sampleStored 1 0).2 = .ok () ∧
    resLookup (delete_task sampleStored 1 0).1.info (0, 1) = none ∧
    resLookup (delete_task sampleStored 1 0).1.inputVals (0, 1) = none ∧
    resLookup (delete_task sampleStored 1 0).1.outputVals (0, 1) = none ∧
    resLookup (delete_task sampleStored 1 0).1.codeFiles (0, 1) = none ∧
    (read_task (delete_task sampleStored 1 0).1 0 1).2
      = .error .notFoundTask ∧
    ((delete_task sampleStored 1 0).1.themeIndex.getD 0 ⟨0, 0⟩).count
      = (sampleStored.themeIndex.getD 0 ⟨0, 0⟩).count - 1 :=
  C5_delete_removes_and_decrements sampleStored 0 1
    ⟨1, 0, "title0", "descr0"⟩ [1] [2] [40] (by decide) rfl rfl rfl rfl

/-- C6: read assembles the task from the stored info record plus the stored
input and output value lists, fails `NotFoundTask` when any of the task's
resource files is absent, fails `NotFoundTheme` when the theme position is out
of range in the index, and never mutates the storage. -/
theorem C6_read_contract (s : Storage) (θ : Nat) (i : Int) :
    (read_task s θ i).1 = s ∧
    (¬ θ < s.themeIndex.length → (read_task s θ i).2 = .error .notFoundTheme) ∧
    (θ < s.themeIndex.length → resLookup s.info (θ, i) = none →
      (read_task s θ i).2 = .error .notFoundTask) ∧
    (θ < s.themeIndex.length → resLookup s.inputVals (θ, i) = none →
      (read_task s θ i).2 = .error .notFoundTask) ∧
    (θ < s.themeIndex.length → resLookup s.outputVals (θ, i) = none →
      (read_task s θ i).2 = .error .notFoundTask) ∧
    (∀ (d : TaskInfo) (inp out : List Int), θ < s.themeIndex.length →
      resLookup s.info (θ, i) = some d →
      resLookup s.inputVals (θ, i) = some inp →
      resLookup s.outputVals (θ, i) = some out →
      (read_task s θ i).2
        = .ok ⟨d.id, d.theme_id, d.title, d.description, inp, out⟩) := by
  refine ⟨?_, ?_, ?_, ?_, ?_, ?_⟩
  · unfold read_task
    cases FileUtils.open_file_task_info s θ i with
    | error e => rfl
    | ok d =>
      cases FileUtils.open_file_values_task_input s θ i with
      | error e => rfl
      | ok inp =>
        cases FileUtils.open_file_values_task_output s θ i with
        | error e => rfl
        | ok out => rfl
  · intro hθ
    unfold read_task FileUtils.open_file_task_info openRes
    simp [hθ, notFoundOf]
  · intro hθ hn
    unfold read_task FileUtils.open_file_task_info openRes
    simp [hθ, hn, notFoundOf]
  · intro hθ hn
    unfold read_task FileUtils.open_file_task_info
      FileUtils.open_file_values_task_input openRes
    cases hA : resLookup s.info (θ, i) <;> simp [hθ, hA, hn, notFoundOf]
  · intro hθ hn
    unfold read_task FileUtils.open_file_task_info
      FileUtils.open_file_values_task_input
      FileUtils.open_file_values_task_output openRes
    cases hA : resLookup s.info (θ, i) <;>
      cases hB : resLookup s.inputVals (θ, i) <;>
        simp [hθ, hA, hB, hn, notFoundOf]
  · intro d inp out hθ hA hB hC
    unfold read_task FileUtils.open_file_task_info
      FileUtils.open_file_values_task_input
      FileUtils.open_file_values_task_output openRes
    simp [hθ, hA, hB, hC]

/-- Witness for C6: reading the stored sample task returns exactly the stored
fields and leaves the state untouched. -/
theorem C6_read_contract_witness :
    (read_task sampleStored 0 1).2
      = .ok ⟨1, 0, "title0", "descr0", [1], [2]⟩ ∧
    (read_task sampleStored 0 1).1 = sampleStored := by
  obtain ⟨c1, -, -, -, -, c6⟩ := C6_read_contract sampleStored 0 1
  exact ⟨c6 ⟨1, 0, "title0", "descr0"⟩ [1] [2] (by decide) rfl rfl rfl, c1⟩

/-- C7 counterexample: updating only the input values of task 1 of theme 0,
a task that was never created, does not fail `NotFoundTask`: the call succeeds
and writes an orphan input resource. -/
theorem C7_not_found_boundaries_counterexample :
    (update_task sampleTheme0 0 1 inputOnlyUpdate []).2
      = .ok ⟨some 1, some 0, none, none, some [3], none⟩ ∧
    resLookup (update_task sampleTheme0 0 1 inputOnlyUpdate []).1.inputVals
        (0, 1)
      = some [3] ∧
    resLookup sampleTheme0.info (0, 1) = none := by
  decide

/-- C7 amended: for a task with no stored resources and for an out-of-range
theme position, read and delete fail `NotFoundTask` / `NotFoundTheme` with the
state unchanged, and update does so whenever the request carries a truthy
title or description; an update carrying neither (only input, output or code)
skips the task-existence check and succeeds on a valid theme. -/
theorem C7_not_found_boundaries (s : Storage) (θ : Nat) (i : Int)
    (t0 : TaskUpdate) (code : List Nat) :
    (θ < s.themeIndex.length → resLookup s.info (θ, i) = none →
      read_task s θ i = (s, .error .notFoundTask)) ∧
    (¬ θ < s.themeIndex.length →
      read_task s θ i = (s, .error .notFoundTheme)) ∧
    (θ < s.themeIndex.length → resLookup s.info (θ, i) = none →
      delete_task s i θ = (s, .error .notFoundTask)) ∧
    (¬ θ < s.themeIndex.length →
      delete_task s i θ = (s, .error .notFoundTheme)) ∧
    ((strTruthy t0.title || strTruthy t0.description) = true →
      θ < s.themeIndex.length → resLookup s.info (θ, i) = none →
      update_task s θ i t0 code = (s, .error .notFoundTask)) ∧
    ((strTruthy t0.title || strTruthy t0.description) = true →
      ¬ θ < s.themeIndex.length →
      update_task s θ i t0 code = (s, .error .notFoundTheme)) ∧
    ((strTruthy t0.title || strTruthy t0.description) = false →
      (listTruthy t0.input || listTruthy t0.output || bytesTruthy code)
        = true →
      θ < s.themeIndex.length →
      (update_task s θ i t0 code).2
        = .ok { t0 with theme_id := some θ, id := some i }) := by
  refine ⟨?_, ?_, ?_, ?_, ?_, ?_, ?_⟩
  · intro hθ hn
    unfold read_task FileUtils.open_file_task_info openRes
    simp [hθ, hn, notFoundOf]
  · intro hθ
    unfold read_task FileUtils.open_file_task_info openRes
    simp [hθ, notFoundOf]
  · intro hθ hn
    have hrm : FileUtils.remove_file_task_info s θ i = .error .fileNotFound := by
      rw [remove_file_task_info_eq, if_pos hθ, hn]
    simpa [notFoundOf] using delete_task_info_fails hrm
  · intro hθ
    have hrm : FileUtils.remove_file_task_info s θ i = .error .indexError := by
      rw [remove_file_task_info_eq, if_neg hθ]
    simpa [notFoundOf] using delete_task_info_fails hrm
  · intro h12 hθ hn
    have hB : (strTruthy t0.title || strTruthy t0.description ||
        listTruthy t0.input || listTruthy t0.output || bytesTruthy code)
          = true := by
      rcases Bool.or_eq_true_iff.mp h12 with h | h <;> simp [h]
    rw [update_task_nonempty_eq s θ i t0 code hB]
    unfold update_task_info_step FileUtils.open_file_task_info openRes
    rw [if_pos (by exact h12)]
    simp [hθ, hn]
  · intro h12 hθ
    have hB : (strTruthy t0.title || strTruthy t0.description ||
        listTruthy t0.input || listTruthy t0.output || bytesTruthy code)
          = true := by
      rcases Bool.or_eq_true_iff.mp h12 with h | h <;> simp [h]
    rw [update_task_nonempty_eq s θ i t0 code hB]
    unfold update_task_info_step FileUtils.open_file_task_info openRes
    rw [if_pos (by exact h12)]
    simp [hθ]
  · intro h12 h345 hθ
    have h12f : strTruthy t0.title = false ∧ strTruthy t0.description = false := by
      constructor <;> [skip; skip] <;> revert h12 <;>
        cases strTruthy t0.title <;> cases strTruthy t0.description <;> simp
    have hB : (strTruthy t0.title || strTruthy t0.description ||
        listTruthy t0.input || listTruthy t0.output || bytesTruthy code)
          = true := by
      simp [h12f.1, h12f.2, h345]
    rw [update_task_nonempty_eq s θ i t0 code hB]
    unfold update_task_info_step
    rw [if_neg (by simp [h12f.1, h12f.2])]
    exact update_task_input_step_snd_ok s θ i _ code hθ

/-- Witness for the amended C7: reading the never-created task 1 of the fresh
theme fails `NotFoundTask` with the state unchanged. -/
theorem C7_not_found_boundaries_witness :
    read_task sampleTheme0 0 1 = (sampleTheme0, .error .notFoundTask) :=
  (C7_not_found_boundaries sampleTheme0 0 1 absentUpdate []).1 (by decide) rfl

/-- C8: a successful update's response is built from the request fields with
the path identifiers forced in; a field the caller did not supply comes back
absent in the response rather than re-read from storage. -/
theorem C8_update_response_from_request (s : Storage) (θ : Nat) (i : Int)
    (t0 u : TaskUpdate) (code : List Nat)
    (h : (update_task s θ i t0 code).2 = .ok u) :
    u = { t0 with theme_id := some θ, id := some i } :=
  update_task_ok_eq h

/-- Witness for C8: the successful title-only update on the stored sample
returns the request union, with description, input and output absent. -/
theorem C8_update_response_from_request_witness :
    (⟨some 1, some 0, some "T", none, none, none⟩ : TaskUpdate)
      = { titleOnlyUpdate with theme_id := some 0, id := some 1 } :=
  C8_update_response_from_request sampleStored 0 1 titleOnlyUpdate
    ⟨some 1, some 0, some "T", none, none, none⟩ [] (by decide)

/-- C9: the path identifiers override any id or theme_id supplied in the
request body — the handler's result ignores body identifiers entirely — the
response carries the path identifiers, all writes touch only the path's
`(theme_id, task_id)` key, and the theme index is never written. -/
theorem C9_path_ids_override (s : Storage) (θ : Nat) (i : Int)
    (t0 : TaskUpdate) (code : List Nat) (a : Option Int) (b : Option Nat) :
    update_task s θ i { t0 with id := a, theme_id := b } code
      = update_task s θ i t0 code ∧
    (∀ u, (update_task s θ i t0 code).2 = .ok u →
      u.id = some i ∧ u.theme_id = some θ) ∧
    (update_task s θ i t0 code).1.themeIndex = s.themeIndex ∧
    (∀ k, k ≠ (θ, i) →
      resLookup (update_task s θ i t0 code).1.info k = resLookup s.info k ∧
      resLookup (update_task s θ i t0 code).1.inputVals k
        = resLookup s.inputVals k ∧
      resLookup (update_task s θ i t0 code).1.outputVals k
        = resLookup s.outputVals k ∧
      resLookup (update_task s θ i t0 code).1.codeFiles k
        = resLookup s.codeFiles k) := by
  obtain ⟨w1, w2, w3, w4, w5⟩ := update_task_writes s θ i t0 code
  refine ⟨rfl, ?_, w1, ?_⟩
  · intro u hu
    rw [update_task_ok_eq hu]
    exact ⟨rfl, rfl⟩
  · intro k hk
    exact ⟨MayWrite_lookup_ne w2 hk, MayWrite_lookup_ne w3 hk,
      MayWrite_lookup_ne w4 hk, MayWrite_lookup_ne w5 hk⟩

/-- Witness for C9: a body carrying foreign identifiers behaves exactly like
one without them, and the keys of other tasks are untouched. -/
theorem C9_path_ids_override_witness :
    update_task sampleStored 0 1
        (⟨some 9, some 7, some "T", none, none, none⟩ : TaskUpdate) []
      = update_task sampleStored 0 1 titleOnlyUpdate [] ∧
    resLookup (update_task sampleStored 0 1 titleOnlyUpdate []).1.info (0, 2)
      = resLookup sampleStored.info (0, 2) := by
  obtain ⟨c1, -, -, c4⟩ := C9_path_ids_override sampleStored 0 1
    titleOnlyUpdate [] (some 9) (some 7)
  exact ⟨c1, (c4 (0, 2) (by decide)).1⟩

/-- C10: field presence in an update is decided by Python truthiness: an
empty-string title or description, an empty input or output list, or an empty
code read is treated exactly like an absent field — the corresponding stored
value is retained — and a request supplying only such empty values is rejected
as an empty request. -/
theorem C10_update_truthiness_semantics (s : Storage) (θ : Nat) (i : Int)
    (t0 : TaskUpdate) (code : List Nat) :
    ((strTruthy t0.title || strTruthy t0.description || listTruthy t0.input ||
      listTruthy t0.output || bytesTruthy code) = false →
      update_task s θ i t0 code = (s, .error .emptyRequest)) ∧
    (strTruthy t0.title = false →
      (resLookup (update_task s θ i t0 code).1.info (θ, i)).map TaskInfo.title
        = (resLookup s.info (θ, i)).map TaskInfo.title) ∧
    (strTruthy t0.description = false →
      (resLookup (update_task s θ i t0 code).1.info (θ, i)).map
          TaskInfo.description
        = (resLookup s.info (θ, i)).map TaskInfo.description) ∧
    (listTruthy t0.input = false →
      (update_task s θ i t0 code).1.inputVals = s.inputVals) ∧
    (listTruthy t0.output = false →
      (update_task s θ i t0 code).1.outputVals = s.outputVals) ∧
    (bytesTruthy code = false →
      (update_task s θ i t0 code).1.codeFiles = s.codeFiles) := by
  obtain ⟨w1, w2, w3, w4, w5⟩ := update_task_writes s θ i t0 code
  refine ⟨?_, ?_, ?_, ?_, ?_, ?_⟩
  · intro hB
    exact update_task_empty_eq s θ i t0 code hB
  · intro h1
    by_cases hB : (strTruthy t0.title || strTruthy t0.description ||
        listTruthy t0.input || listTruthy t0.output || bytesTruthy code) = true
    · rw [update_task_nonempty_eq s θ i t0 code hB]
      exact update_task_info_step_title_of s θ i _ code (by exact h1)
    · rw [update_task_empty_eq s θ i t0 code (by simpa using hB)]
  · intro h2
    by_cases hB : (strTruthy t0.title || strTruthy t0.description ||
        listTruthy t0.input || listTruthy t0.output || bytesTruthy code) = true
    · rw [update_task_nonempty_eq s θ i t0 code hB]
      exact update_task_info_step_description_of s θ i _ code (by exact h2)
    · rw [update_task_empty_eq s θ i t0 code (by simpa using hB)]
  · intro h3
    exact MayWrite_eq_of_false w3 h3
  · intro h4
    exact MayWrite_eq_of_false w4 h4
  · intro h5
    exact MayWrite_eq_of_false w5 h5

/-- Witness for C10: a request whose only supplied values are the empty string
and the empty list is rejected as an empty request. -/
theorem C10_update_truthiness_semantics_witness :
    update_task sampleStored 0 1 emptyValuesUpdate []
      = (sampleStored, .error .emptyRequest) :=
  (C10_update_truthiness_semantics sampleStored 0 1 emptyValuesUpdate []).1
    (by decide)

end AutogradeApi
